import Mathlib

/-!
Verification development for the rumqtt client connection orchestrator
(src/src/client/connection.rs). The orchestrator owns the transport, the
MQTT session state machine and the command/notification channels; it runs
the reconnect loop, spawns the keep-alive timer task and the inbound
packet task, and folds application commands into transport writes.

The session state machine (client/state.rs, `MqttState`) is not part of
the sources; its transition functions are modelled from the spec (each
such definition is marked `Modelled from the spec:`). Everything else is
a direct shallow embedding of connection.rs: the inbound packet handler
(`handlePacket` / `processItems`), the connect phase (`mqtt_connect`),
the keep-alive timer (`ping_timer_spawned` / `ping_timer_tick`) and the
reconnect loop (`startLoop` / `start`). Concurrency is resolved into
scripts: a list of decode results for the inbound task, and a list of
per-attempt outcomes for the reconnect loop.
-/

namespace Rumqtt

/-- Quality-of-service levels used by this client (QoS-2 is a non-goal). -/
inductive QoS
  | atMostOnce
  | atLeastOnce
deriving DecidableEq, Repr

/-- An MQTT application message (mqtt3 `Publish`): topic, payload, QoS and
an optional packet identifier correlating a QoS-1 publish with its ack. -/
structure Publish where
  qos : QoS
  pkid : Option Nat
  topic : String
  payload : List Nat
deriving DecidableEq, Repr

/-- Broker handshake reply (mqtt3 `Connack`): session-present flag and a
return code, 0 meaning the connection was accepted. -/
structure Connack where
  session_present : Bool
  code : Nat
deriving DecidableEq, Repr

/-- The mqtt3 control-packet vocabulary, restricted to the variants this
client constructs or matches on; every variant the inbound handler does
not specifically handle falls into its catch-all arm, so the exact set of
remaining variants is immaterial and `Connect`, `Subscribe`, `Pingreq`
and `Disconnect` stand for them. -/
inductive Packet
  | Connect
  | Connack (c : Connack)
  | Publish (p : Publish)
  | Puback (pkid : Nat)
  | Subscribe (topic : String)
  | Suback (pkid : Nat)
  | Pingreq
  | Pingresp
  | Disconnect
deriving DecidableEq, Repr

/-- Application-level requests travelling on the command channel
(client::Request): publishes, subscribes, pings, acks for inbound QoS-1
publishes, and disconnect. -/
inductive Request
  | Publish (p : Publish)
  | Subscribe (topic : String)
  | Ping
  | Puback (pkid : Nat)
  | Disconnect
deriving DecidableEq, Repr

/-- Reconnect policy from mqttopts: never retry, retry only once a
connection has succeeded, or always retry, each with a delay in seconds. -/
inductive ReconnectOptions
  | Never
  | AfterFirstSuccess (d : Nat)
  | Always (d : Nat)
deriving DecidableEq, Repr

/-- Client configuration consumed by the orchestrator: broker address,
optional keep-alive interval (absence disables the timer task) and the
reconnect policy. -/
structure MqttOptions where
  broker_addr : String
  keep_alive : Option Nat
  reconnect : ReconnectOptions
deriving DecidableEq, Repr

/-- Modelled from the spec: the per-session protocol state held by
`MqttState` (client/state.rs, not in the sources). `initial_connect` is
true until the first successful handshake; `ping_required` is the
idle-ping flag read by the timer task; `connack_received` records whether
the current attempt completed the handshake; `outstanding_qos1` is the
ordered mapping from packet-id to publish for every QoS-1 publish sent
but not yet acknowledged (insertion order = send order); `last_pkid` is
the last packet identifier handed out. -/
structure MqttState where
  initial_connect : Bool
  ping_required : Bool
  connack_received : Bool
  last_pkid : Nat
  outstanding_qos1 : List (Nat × Publish)
deriving DecidableEq, Repr

/-- Modelled from the spec: the fresh session state built by
`MqttState::new` — no handshake yet, nothing outstanding. -/
def MqttState.new : MqttState :=
  { initial_connect := true
    ping_required := false
    connack_received := false
    last_pkid := 0
    outstanding_qos1 := [] }

/-- Errors surfaced by the connect phase; a broker-refused Connack carries
the non-zero return code. -/
inductive ConnectError
  | io
  | connectionRefused (code : Nat)
deriving DecidableEq, Repr

/-- Modelled from the spec: `MqttState::handle_incoming_connack` validates
the broker's acceptance code; on success it marks the handshake complete
(and the first success clears `initial_connect`), on any non-success code
it fails with a connection-refused error. -/
def handle_incoming_connack (s : MqttState) (c : Connack) : Except ConnectError MqttState :=
  if c.code = 0 then
    .ok { s with connack_received := true, initial_connect := false }
  else
    .error (.connectionRefused c.code)

/-- Modelled from the spec: `MqttState::handle_reconnection` returns the
in-order contents of `outstanding_qos1` for retransmission, or nothing if
the set is empty or this is the first-ever connection. State is not
changed: an entry leaves the set only on a matching Puback. -/
def handle_reconnection (s : MqttState) : Option (List Publish) :=
  if s.initial_connect || s.outstanding_qos1.isEmpty then none
  else some (s.outstanding_qos1.map (fun e => e.2))

/-- Modelled from the spec: `MqttState::handle_client_requests` translates
an application request into the wire packet; an outgoing QoS-1 publish is
assigned a fresh packet-id and inserted at the back of `outstanding_qos1`
before the packet is returned. `ping_required` is not touched. -/
def handle_client_requests (s : MqttState) (r : Request) : MqttState × Packet :=
  match r with
  | .Publish p =>
      match p.qos with
      | .atMostOnce => (s, .Publish p)
      | .atLeastOnce =>
          let pkid := s.last_pkid + 1
          let p := { p with pkid := some pkid }
          ({ s with last_pkid := pkid
                    outstanding_qos1 := s.outstanding_qos1 ++ [(pkid, p)] },
           .Publish p)
  | .Subscribe t => (s, .Subscribe t)
  | .Ping => (s, .Pingreq)
  | .Puback i => (s, .Puback i)
  | .Disconnect => (s, .Disconnect)

/-- Modelled from the spec: `MqttState::handle_incoming_puback` removes
the matching entry from `outstanding_qos1`; if no entry matches it leaves
the state untouched and reports an unsolicited ack (the `false` result),
which the caller logs and ignores. -/
def handle_incoming_puback (s : MqttState) (pkid : Nat) : MqttState × Bool :=
  if s.outstanding_qos1.any (fun e => e.1 == pkid) then
    ({ s with outstanding_qos1 := s.outstanding_qos1.filter (fun e => e.1 != pkid) }, true)
  else
    (s, false)

/-- Modelled from the spec: `MqttState::handle_incoming_pingresp` clears
the `ping_required` flag. -/
def handle_incoming_pingresp (s : MqttState) : MqttState :=
  { s with ping_required := false }

/-- Modelled from the spec: `MqttState::handle_incoming_publish` — QoS-0
yields the publish for delivery and no reply; QoS-1 yields the publish
for delivery and a Puback reply carrying the same packet-id. The two
outputs are decoupled so the orchestrator can route them to the
notification queue and the command path respectively. -/
def handle_incoming_publish (s : MqttState) (p : Publish) :
    MqttState × Option Publish × Option Packet :=
  match p.qos with
  | .atMostOnce => (s, some p, none)
  | .atLeastOnce => (s, some p, p.pkid.map Packet.Puback)

/-- Modelled from the spec: `MqttState::is_ping_required`, the read-only
accessor the timer task polls. -/
def is_ping_required (s : MqttState) : Bool :=
  s.ping_required

/-- One observable emission of the inbound packet task: a notification
accepted by the bounded notifier channel (`try_send` succeeded), a
notification dropped because that channel was full (`try_send` failed,
logged and ignored), or a request enqueued on the orchestrator's command
channel (`commands_tx.send(..).wait()`). -/
inductive Emit
  | notifyOk (p : Packet)
  | notifyDropped (p : Packet)
  | command (r : Request)
deriving DecidableEq, Repr

/-- The notifier's `try_send`: `full k` says whether the bounded channel
is full at the k-th notification attempt; the packet is delivered or
dropped accordingly, and in either case processing continues. -/
def trySend (full : Nat → Bool) (k : Nat) (p : Packet) : Emit :=
  if full k then .notifyDropped p else .notifyOk p

/-- Result of handling one decoded packet in
`Connection::spawn_incoming_network_packet_handler`: the updated state
with the emissions and the next notification counter, or a panic
(`unimplemented!()`). -/
inductive StepOutcome
  | ok (s : MqttState) (out : List Emit) (k : Nat)
  | panic
deriving DecidableEq, Repr

/-- The body of the inbound task's match on a decoded packet
(connection.rs lines 185-221): Connack goes through the state machine
with errors logged; Puback is offered to the notifier then applied to the
state machine with unsolicited-ack errors ignored; Pingresp clears the
ping flag; Publish is routed through `handle_incoming_publish`, its
delivery offered to the notifier and its ack (a Puback) enqueued as a
command; Suback is offered to the notifier; every other variant hits
`unimplemented!()`. -/
def handlePacket (full : Nat → Bool) (k : Nat) (s : MqttState) (m : Packet) : StepOutcome :=
  match m with
  | .Connack c =>
      match handle_incoming_connack s c with
      | .ok s1 => .ok s1 [] k
      | .error _ => .ok s [] k
  | .Puback a =>
      .ok (handle_incoming_puback s a).1 [trySend full k (.Puback a)] (k + 1)
  | .Pingresp =>
      .ok (handle_incoming_pingresp s) [] k
  | .Publish p =>
      match handle_incoming_publish s p with
      | (s1, pubOpt, ackOpt) =>
          let step1 : List Emit × Nat :=
            match pubOpt with
            | some pp => ([trySend full k (.Publish pp)], k + 1)
            | none => ([], k)
          match ackOpt with
          | none => .ok s1 step1.1 step1.2
          | some (.Puback i) => .ok s1 (step1.1 ++ [.command (.Puback i)]) step1.2
          | some _ => .panic
  | .Suback i =>
      .ok s [trySend full k (.Suback i)] (k + 1)
  | _ => .panic

/-- How a run of the inbound packet task ended: the decoded-packet stream
ended, a receive/decode error terminated it (after a Disconnect command
was enqueued), or an `unimplemented!()` arm panicked. -/
inductive RunResult
  | finished
  | netError
  | panicked
deriving DecidableEq, Repr

/-- The inbound packet task (connection.rs lines 174-224) over a script
of decode results: each `Except.ok` packet is handled in receipt order;
the first receive/decode error enqueues `Request.Disconnect` on the
command channel and terminates the task; stream end just terminates it. -/
def processItems (full : Nat → Bool) (k : Nat) (s : MqttState) :
    List (Except Unit Packet) → MqttState × List Emit × RunResult
  | [] => (s, [], .finished)
  | .error _ :: _ => (s, [.command .Disconnect], .netError)
  | .ok m :: rest =>
      match handlePacket full k s m with
      | .panic => (s, [], .panicked)
      | .ok s1 out k1 =>
          let r := processItems full k1 s1 rest
          (r.1, out ++ r.2.1, r.2.2)

/-- Outcome of `Connection::mqtt_connect`: a panic (address parse
`unwrap`, `packet.unwrap()` on a closed stream, or the `unimplemented!()`
arm for a non-Connack first packet), an attempt failure handed to the
reconnect policy, or a connected state. -/
inductive ConnectOutcome
  | panicked
  | failed (e : ConnectError)
  | connected (s : MqttState)
deriving DecidableEq, Repr

/-- `Connection::mqtt_connect` (connection.rs lines 108-137) over the
environment's behaviour: `addrParsed` is whether
`broker_addr.parse::<SocketAddr>()` succeeded (its failure is
`.unwrap()`ed, a panic), `tcpOk` whether the TCP connect and Connect send
succeeded (failure becomes an `Err` for the policy), and `firstItem` the
first read off the framed stream — `none` is a closed stream
(`packet.unwrap()` panics), a read error becomes an `Err`, a Connack is
validated by the state machine, and any other first packet hits
`unimplemented!()`. -/
def mqtt_connect (s : MqttState) (addrParsed : Bool) (tcpOk : Bool)
    (firstItem : Option (Except Unit Packet)) : ConnectOutcome :=
  if !addrParsed then .panicked
  else if !tcpOk then .failed .io
  else
    match firstItem with
    | none => .panicked
    | some (.error _) => .failed .io
    | some (.ok (.Connack c)) =>
        match handle_incoming_connack s c with
        | .ok s1 => .connected s1
        | .error e => .failed e
    | some (.ok _) => .panicked

/-- The spawn condition for the keep-alive timer task (connection.rs
lines 75-77): it is spawned exactly when a keep-alive interval is
configured. -/
def ping_timer_spawned (opts : MqttOptions) : Bool :=
  opts.keep_alive.isSome

/-- The body of one keep-alive timer tick (connection.rs lines 146-153):
if `is_ping_required()` holds, a `Request.Ping` is sent on the same
command channel the application uses; otherwise nothing is sent. The
timer never writes to the transport itself. -/
def ping_timer_tick (s : MqttState) : List Request :=
  if is_ping_required s then [Request.Ping] else []

/-- The reconnect-policy match of `Connection::start` (connection.rs
lines 55-68), consulted when `mqtt_connect` fails: `none` means break out
of the loop (permanent termination), `some d` means sleep `d` seconds and
retry. The `AfterFirstSuccess` guard tests the `initial_connect` value
captured at line 47, before the loop. -/
def reconnectDecision (initial_connect : Bool) : ReconnectOptions → Option Nat
  | .Never => none
  | .AfterFirstSuccess d => if initial_connect then none else some d
  | .Always d => some d

/-- The state update a successful `mqtt_connect` applies: the accepted
Connack went through `handle_incoming_connack`, which marks the handshake
complete and clears `initial_connect`. -/
def connackSuccess (s : MqttState) : MqttState :=
  { s with connack_received := true, initial_connect := false }

/-- The steady-state command fold of `Connection::start` (connection.rs
lines 94-99): each command is translated by `handle_client_requests` and
its packet written to the transport, sequentially, in arrival order. -/
def foldCommands (s : MqttState) : List Request → MqttState × List Packet
  | [] => (s, [])
  | r :: rest =>
      let sp := handle_client_requests s r
      let tail := foldCommands sp.1 rest
      (tail.1, sp.2 :: tail.2)

/-- The environment's behaviour for one iteration of the reconnect loop:
either `mqtt_connect` fails, or it succeeds and the ensuing session folds
`n` commands off the queue before a network failure ends the fold. -/
inductive AttemptScript
  | connectFail
  | connectOk (n : Nat)
deriving DecidableEq, Repr

/-- Observable events of the reconnect loop: connection attempts and
their outcomes, the reconnect-delay sleep, packets written to the
transport, the end of a session's fold, and permanent termination of the
orchestrator. -/
inductive Ev
  | connectAttempt
  | connectFailed
  | connectSucceeded
  | sleep (d : Nat)
  | txWrite (p : Packet)
  | sessionEnded
  | terminated
deriving DecidableEq, Repr

/-- The `'reconnect` loop of `Connection::start` (connection.rs lines
50-104) with the captured `initial_connect` value `ic`, running a script
of per-attempt outcomes. On a connect failure the reconnect policy is
consulted: break emits `terminated`, retry emits a sleep and loops. On a
connect success the state machine has absorbed the accepted Connack, the
publishes returned by `handle_reconnection` are written to the transport
first, then the fold writes the packets for the commands it consumes off
the queue; when the session's fold ends the loop re-enters with the
remaining queue. An exhausted script means the orchestrator is still
alive, blocked on its next event. -/
def startLoop (ic : Bool) (ropts : ReconnectOptions) :
    MqttState → List Request → List AttemptScript → List Ev
  | _, _, [] => []
  | s, q, .connectFail :: rest =>
      Ev.connectAttempt :: Ev.connectFailed ::
        (match reconnectDecision ic ropts with
         | none => [Ev.terminated]
         | some d => Ev.sleep d :: startLoop ic ropts s q rest)
  | s, q, .connectOk n :: rest =>
      let s1 := connackSuccess s
      let fr := foldCommands s1 (q.take n)
      Ev.connectAttempt :: Ev.connectSucceeded ::
        (((handle_reconnection s1).getD []).map (fun p => Ev.txWrite (.Publish p)) ++
         fr.2.map Ev.txWrite ++
         Ev.sessionEnded :: startLoop ic ropts fr.1 (q.drop n) rest)

/-- `Connection::start` (connection.rs lines 46-105): it captures
`initial_connect` from the session state once, before the loop, and that
captured value governs every reconnect decision of the run. -/
def start (ropts : ReconnectOptions) (s : MqttState) (q : List Request)
    (script : List AttemptScript) : List Ev :=
  startLoop s.initial_connect ropts s q script

/-- Number of connection attempts recorded in a trace. -/
def attemptCount : List Ev → Nat
  | [] => 0
  | Ev.connectAttempt :: tr => attemptCount tr + 1
  | _ :: tr => attemptCount tr

/-- The packets written to the transport in a trace, in order. -/
def txWrites : List Ev → List Packet
  | [] => []
  | Ev.txWrite p :: tr => p :: txWrites tr
  | _ :: tr => txWrites tr

/-- A sample outstanding QoS-1 publish with packet-id 1. -/
def pubA : Publish :=
  { qos := .atLeastOnce, pkid := some 1, topic := "a/b", payload := [1] }

/-- A sample outstanding QoS-1 publish with packet-id 2. -/
def pubB : Publish :=
  { qos := .atLeastOnce, pkid := some 2, topic := "c/d", payload := [2] }

/-- A sample inbound QoS-1 publish carrying packet-id 7. -/
def inboundPub : Publish :=
  { qos := .atLeastOnce, pkid := some 7, topic := "e/f", payload := [3, 4] }

/-- A session that already connected once and has two unacknowledged
QoS-1 publishes, in insertion order. -/
def resumedState : MqttState :=
  { MqttState.new with
      initial_connect := false
      outstanding_qos1 := [(1, pubA), (2, pubB)] }

/-- A session with a single outstanding QoS-1 publish, packet-id 1. -/
def oneOutstanding : MqttState :=
  { MqttState.new with outstanding_qos1 := [(1, pubA)] }

theorem txWrites_append (a b : List Ev) :
    txWrites (a ++ b) = txWrites a ++ txWrites b := by
  induction a with
  | nil => rfl
  | cons e t ih => cases e <;> simp [txWrites, ih]

theorem txWrites_map_txWrite (l : List Packet) :
    txWrites (l.map Ev.txWrite) = l := by
  induction l with
  | nil => rfl
  | cons p t ih => simp [txWrites, ih]

theorem txWrites_map_publish (l : List Publish) :
    txWrites (l.map fun p => Ev.txWrite (Packet.Publish p)) = l.map Packet.Publish := by
  induction l with
  | nil => rfl
  | cons p t ih => simp [txWrites, ih]

theorem attemptCount_append (a b : List Ev) :
    attemptCount (a ++ b) = attemptCount a + attemptCount b := by
  induction a with
  | nil => simp [attemptCount]
  | cons e t ih =>
      cases e <;> simp [attemptCount, ih]
      omega

theorem attemptCount_map_txWrite (l : List Packet) :
    attemptCount (l.map Ev.txWrite) = 0 := by
  induction l with
  | nil => rfl
  | cons p t ih => simp [attemptCount, ih]

theorem attemptCount_map_publish (l : List Publish) :
    attemptCount (l.map fun p => Ev.txWrite (Packet.Publish p)) = 0 := by
  induction l with
  | nil => rfl
  | cons p t ih => simp [attemptCount, ih]

/-- Claim C1: on a successful (re)connection with a non-empty outstanding
QoS-1 set, every outstanding publish is written to the transport, in
original insertion order, before the command fold writes the packet of
any command taken off the queue, and only then does the session's fold
run. The trace of the loop iteration is exactly: attempt, success, the
retransmission writes in insertion order, the fold's writes, session
end. -/
theorem connection_c1_resumption_order (ic : Bool) (ropts : ReconnectOptions)
    (s : MqttState) (q : List Request) (n : Nat) (rest : List AttemptScript)
    (h : s.outstanding_qos1.isEmpty = false) :
    startLoop ic ropts s q (.connectOk n :: rest) =
      Ev.connectAttempt :: Ev.connectSucceeded ::
        (s.outstanding_qos1.map (fun e => Ev.txWrite (Packet.Publish e.2)) ++
         (foldCommands (connackSuccess s) (q.take n)).2.map Ev.txWrite ++
         Ev.sessionEnded ::
           startLoop ic ropts (foldCommands (connackSuccess s) (q.take n)).1
             (q.drop n) rest) := by
  simp [startLoop, handle_reconnection, connackSuccess, h, List.map_map, Function.comp]

/-- Claim C1 witness: a session with two unacknowledged publishes and one
queued command retransmits both publishes, in order, before the command's
packet is written. -/
theorem connection_c1_resumption_order_witness :
    resumedState.outstanding_qos1.isEmpty = false ∧
    startLoop false (.Always 1) resumedState [Request.Ping] [.connectOk 1] =
      Ev.connectAttempt :: Ev.connectSucceeded ::
        (resumedState.outstanding_qos1.map (fun e => Ev.txWrite (Packet.Publish e.2)) ++
         (foldCommands (connackSuccess resumedState) ([Request.Ping].take 1)).2.map Ev.txWrite ++
         Ev.sessionEnded ::
           startLoop false (.Always 1)
             (foldCommands (connackSuccess resumedState) ([Request.Ping].take 1)).1
             ([Request.Ping].drop 1) []) :=
  ⟨rfl, connection_c1_resumption_order false (.Always 1) resumedState [Request.Ping] 1 [] rfl⟩

/-- Claim C2 counterexample: with a fresh session (so the captured
`initial_connect` is true) under `AfterFirstSuccess 5`, a connection
succeeds, its session ends with a network failure, and the following
connect failure terminates the orchestrator immediately — no sleep, no
fresh attempt — even though a connection had succeeded. This refutes the
claim that a connect failure occurring after at least one successful
connection triggers a wait and a retry. -/
theorem connection_c2_counterexample :
    start (.AfterFirstSuccess 5) MqttState.new [] [.connectOk 0, .connectFail] =
      [Ev.connectAttempt, Ev.connectSucceeded, Ev.sessionEnded,
       Ev.connectAttempt, Ev.connectFailed, Ev.terminated] ∧
    Ev.sleep 5 ∉ start (.AfterFirstSuccess 5) MqttState.new [] [.connectOk 0, .connectFail] := by
  decide

/-- Claim C2 (amended): under `AfterFirstSuccess d`, a connect failure is
decided by the `initial_connect` value captured once at orchestrator
start — if it was true (no success before the orchestrator started) the
failure terminates the loop, even when a connection succeeded within the
current run; if it was false the loop sleeps `d` and retries. -/
theorem connection_c2_after_first_success (d : Nat) (s : MqttState)
    (q : List Request) (rest : List AttemptScript) :
    startLoop true (.AfterFirstSuccess d) s q (.connectFail :: rest) =
      [Ev.connectAttempt, Ev.connectFailed, Ev.terminated] ∧
    startLoop false (.AfterFirstSuccess d) s q (.connectFail :: rest) =
      Ev.connectAttempt :: Ev.connectFailed :: Ev.sleep d ::
        startLoop false (.AfterFirstSuccess d) s q rest :=
  ⟨rfl, rfl⟩

/-- Claim C3 counterexample: under policy `Never` a connection succeeds,
its session ends with a steady-state network failure, and the loop makes
a second connection attempt — the trace counts two attempts after the
session's end, refuting the claim that any failure leaves no further
connection attempts under `Never`. -/
theorem connection_c3_counterexample :
    attemptCount (start .Never MqttState.new [] [.connectOk 0, .connectFail]) = 2 ∧
    Ev.sessionEnded ∈ start .Never MqttState.new [] [.connectOk 0, .connectFail] := by
  decide

/-- Claim C3 (amended): under policy `Never` a connect-phase failure
terminates the orchestrator permanently, with the rest of the run
discarded; a steady-state network failure only ends the current attempt,
and the loop re-enters with a fresh connection attempt — the reconnect
policy is consulted solely on connect failures, so the trace of a
session-then-connect-failure run contains two connection attempts. -/
theorem connection_c3_never (ic : Bool) (s : MqttState) (q : List Request)
    (n : Nat) (rest : List AttemptScript) :
    startLoop ic .Never s q (.connectFail :: rest) =
      [Ev.connectAttempt, Ev.connectFailed, Ev.terminated] ∧
    attemptCount (startLoop ic .Never s q [.connectOk n, .connectFail]) = 2 := by
  refine ⟨rfl, ?_⟩
  simp [startLoop, reconnectDecision, attemptCount, attemptCount_append,
        attemptCount_map_txWrite, attemptCount_map_publish]

/-- Claim C4: an inbound QoS-1 publish is offered to the notification
channel and a Puback request with the identical packet-id is enqueued on
the command path; the quantification over every fullness oracle `full`
shows the Puback is enqueued whether or not the notification channel is
full, and the notification drop is non-fatal (the outcome is `ok`, never
a panic or termination). -/
theorem connection_c4_qos1_publish (full : Nat → Bool) (k : Nat) (s : MqttState)
    (p : Publish) (i : Nat) (hq : p.qos = .atLeastOnce) (hp : p.pkid = some i) :
    handlePacket full k s (.Publish p) =
      .ok s [trySend full k (.Publish p), .command (.Puback i)] (k + 1) := by
  simp [handlePacket, handle_incoming_publish, hq, hp]

/-- Claim C4 witness: with the notification channel permanently full, the
inbound QoS-1 publish with packet-id 7 has its notification dropped yet
the Puback command for packet-id 7 is still enqueued. -/
theorem connection_c4_qos1_publish_witness :
    inboundPub.qos = .atLeastOnce ∧ inboundPub.pkid = some 7 ∧
    handlePacket (fun _ => true) 0 MqttState.new (.Publish inboundPub) =
      .ok MqttState.new
        [trySend (fun _ => true) 0 (.Publish inboundPub), .command (.Puback 7)] 1 :=
  ⟨rfl, rfl, connection_c4_qos1_publish (fun _ => true) 0 MqttState.new inboundPub 7 rfl rfl⟩

/-- Claim C5 counterexample: a packet stream that simply ends (here after
one Pingresp) terminates the inbound task with `finished` and no
Disconnect-equivalent command is ever enqueued — refuting the claim that
the end of the packet stream enqueues a Disconnect command. Only the
error path does. -/
theorem connection_c5_counterexample :
    (processItems (fun _ => false) 0 MqttState.new [Except.ok Packet.Pingresp]).2.2 =
      RunResult.finished ∧
    Emit.command Request.Disconnect ∉
      (processItems (fun _ => false) 0 MqttState.new [Except.ok Packet.Pingresp]).2.1 := by
  decide

/-- Claim C5 (amended): when the inbound packet task hits a receive or
decode error it enqueues a `Request.Disconnect` on the orchestrator's
command path and terminates, without touching the rest of the stream;
when the packet stream merely ends, the task terminates without
enqueueing any command. -/
theorem connection_c5_error_signals_disconnect (full : Nat → Bool) (k : Nat)
    (s : MqttState) (rest : List (Except Unit Packet)) :
    processItems full k s (.error () :: rest) =
      (s, [Emit.command Request.Disconnect], .netError) ∧
    processItems full k s [] = (s, [], .finished) :=
  ⟨rfl, rfl⟩

/-- Claim C6 (code bug): an inbound packet of a variant the handler does
not specifically handle — here an inbound Pingreq — falls into the
catch-all arm, which is `unimplemented!()` in the source: the task
panics instead of taking a log-and-ignore outcome. The run over a stream
containing such a packet ends `panicked`. -/
theorem connection_c6_unhandled_variant_panics :
    handlePacket (fun _ => false) 0 MqttState.new Packet.Pingreq = .panic ∧
    (processItems (fun _ => false) 0 MqttState.new [Except.ok Packet.Pingreq]).2.2 =
      RunResult.panicked :=
  ⟨rfl, rfl⟩

/-- Claim C7 (code bug): an address-resolution failure — a broker
address that does not parse as a socket address — panics the connect
phase through `.unwrap()` rather than being classified as an attempt
failure; by contrast a transport-establishment failure and a
broker-refused Connack are returned as attempt failures for the
reconnect policy, as the claim states. -/
theorem connection_c7_addr_parse_panics :
    mqtt_connect MqttState.new false true (some (.ok (.Connack ⟨false, 0⟩))) =
      ConnectOutcome.panicked ∧
    mqtt_connect MqttState.new true false (some (.ok (.Connack ⟨false, 0⟩))) =
      ConnectOutcome.failed .io ∧
    mqtt_connect MqttState.new true true (some (.ok (.Connack ⟨false, 5⟩))) =
      ConnectOutcome.failed (.connectionRefused 5) :=
  ⟨rfl, rfl, rfl⟩

/-- Claim C8: a Puback whose packet-id matches no outstanding entry
leaves the session state exactly as it was, produces only the (ignored)
notification attempt, and the run continues with the remaining packets —
the unsolicited ack neither mutates state nor terminates processing. -/
theorem connection_c8_unsolicited_puback (full : Nat → Bool) (k : Nat)
    (s : MqttState) (a : Nat) (rest : List (Except Unit Packet))
    (h : s.outstanding_qos1.any (fun e => e.1 == a) = false) :
    handlePacket full k s (.Puback a) =
      .ok s [trySend full k (.Puback a)] (k + 1) ∧
    processItems full k s (.ok (.Puback a) :: rest) =
      ((processItems full (k + 1) s rest).1,
       trySend full k (.Puback a) :: (processItems full (k + 1) s rest).2.1,
       (processItems full (k + 1) s rest).2.2) := by
  have h1 : handlePacket full k s (.Puback a) =
      .ok s [trySend full k (.Puback a)] (k + 1) := by
    simp [handlePacket, handle_incoming_puback, h]
  exact ⟨h1, by simp [processItems, h1]⟩

/-- Claim C8 witness: a session holding only packet-id 1 outstanding
receives a Puback for packet-id 2; the state is unchanged and the
subsequent Pingresp is still processed. -/
theorem connection_c8_unsolicited_puback_witness :
    (oneOutstanding.outstanding_qos1.any (fun e => e.1 == 2) = false) ∧
    (handlePacket (fun _ => false) 0 oneOutstanding (.Puback 2) =
       .ok oneOutstanding [trySend (fun _ => false) 0 (.Puback 2)] 1 ∧
     processItems (fun _ => false) 0 oneOutstanding
         (.ok (.Puback 2) :: [Except.ok Packet.Pingresp]) =
       ((processItems (fun _ => false) 1 oneOutstanding [Except.ok Packet.Pingresp]).1,
        trySend (fun _ => false) 0 (.Puback 2) ::
          (processItems (fun _ => false) 1 oneOutstanding [Except.ok Packet.Pingresp]).2.1,
        (processItems (fun _ => false) 1 oneOutstanding [Except.ok Packet.Pingresp]).2.2)) :=
  ⟨by decide,
   connection_c8_unsolicited_puback (fun _ => false) 0 oneOutstanding 2
     [Except.ok Packet.Pingresp] (by decide)⟩

/-- Claim C9: the keep-alive timer task is spawned exactly when a
keep-alive interval is configured, and a tick sends a `Request.Ping` on
the command queue if and only if `is_ping_required` holds; a tick never
emits anything but `Request.Ping` and, by construction of the timer
task, never a transport write. -/
theorem connection_c9_ping_timer (opts : MqttOptions) (s : MqttState) :
    (ping_timer_spawned opts = true ↔ opts.keep_alive ≠ none) ∧
    (Request.Ping ∈ ping_timer_tick s ↔ is_ping_required s = true) ∧
    (ping_timer_tick s).all (fun r => r == Request.Ping) = true := by
  refine ⟨?_, ?_, ?_⟩
  · simp [ping_timer_spawned, Option.isSome_iff_ne_none]
  · cases hpr : is_ping_required s <;> simp [ping_timer_tick, hpr]
  · cases hpr : is_ping_required s <;> simp [ping_timer_tick, hpr]

/-- Claim C10: the command queue is owned across connection attempts — a
failed attempt under a retrying policy leaves the queue untouched for
the next iteration — and a run consisting of a failed attempt followed
by a successful one writes to the transport exactly the session-
resumption retransmissions followed by the packets of every retained
command, in original enqueue order. -/
theorem connection_c10_commands_retained (ic : Bool) (d : Nat) (s : MqttState)
    (q : List Request) (rest : List AttemptScript) :
    startLoop ic (.Always d) s q (.connectFail :: rest) =
      Ev.connectAttempt :: Ev.connectFailed :: Ev.sleep d ::
        startLoop ic (.Always d) s q rest ∧
    txWrites (startLoop ic (.Always d) s q [.connectFail, .connectOk q.length]) =
      ((handle_reconnection (connackSuccess s)).getD []).map Packet.Publish ++
        (foldCommands (connackSuccess s) q).2 := by
  refine ⟨rfl, ?_⟩
  simp [startLoop, reconnectDecision, txWrites, txWrites_append,
        txWrites_map_txWrite, txWrites_map_publish, List.take_length, List.drop_length]

end Rumqtt
